import Mathlib

/-!
Verification of the X-feed harvesting loop of `src/fetchers/x_scraper.py`
(TrendThread repository).

The Python module drives a Selenium browser over a virtualized feed,
extracts structured records from mounted feed items, deduplicates them by
trimmed body text, caps the capture at a target count, and persists the
result in a `finally` block.  We embed the pure part of every function
shallowly: the DOM is modelled by the field values the Selenium lookups
would yield, exceptions raised by a lookup are modelled by `Option`
(`none` = the lookup failed / the element is absent), and the orchestrator
`run_full_x_scraper` becomes a function from an environment trace
(`World`) to an observable `RunResult` recording the rows captured, the
flush and `quit` calls, the scroll commands and settle sleeps issued, and
the terminal state reached.
-/

namespace XScraper

/-! ### String helpers mirroring the Python primitives used by the module -/

/-- `List.isPrefixOf pat` starting at every suffix: substring test,
mirroring Python's `pat in s`. -/
def hasSubAux (pat : List Char) : List Char → Bool
  | [] => pat.isEmpty
  | c :: cs => List.isPrefixOf pat (c :: cs) || hasSubAux pat cs

/-- Python's `pat in s` substring containment on strings. -/
def strHas (s pat : String) : Bool :=
  hasSubAux pat.data s.data

/-- Python's `s.rstrip("/")`: drop trailing `'/'` characters. -/
def rstripSlash (s : String) : String :=
  String.mk ((s.data.reverse.dropWhile (fun c => c = '/')).reverse)

/-- Python's `s.strip()`: drop leading and trailing whitespace. -/
def pyStrip (s : String) : String :=
  String.mk
    (((s.data.dropWhile Char.isWhitespace).reverse.dropWhile
      Char.isWhitespace).reverse)

/-- Python's `s.lower()` (the handles compared at line 110 are ASCII). -/
def lowerStr (s : String) : String :=
  String.mk (s.data.map Char.toLower)

def splitSlashAux : List Char → List Char → List String
  | [], acc => [String.mk acc.reverse]
  | c :: cs, acc =>
    if c = '/' then String.mk acc.reverse :: splitSlashAux cs []
    else splitSlashAux cs (c :: acc)

/-- Python's `s.split("/")` (always returns at least one piece). -/
def splitSlash (s : String) : List String :=
  splitSlashAux s.data []

/-- Python's `sep.join(l)`. -/
def joinSep (sep : String) : List String → String
  | [] => ""
  | [x] => x
  | x :: xs => x ++ sep ++ joinSep sep xs

/-- Character class of the regex `[\d,\.]` used by `_get_tweet_engagement`
(line 123): a digit, a comma or a dot. -/
def isNumChar (c : Char) : Bool :=
  c.isDigit || c = ',' || c = '.'

/-- `re.search(r"([\d,\.]+[KMB]?)", s)` (line 123): leftmost maximal run of
`[\d,\.]` characters followed by an optional `K`/`M`/`B` suffix; `none`
when no such run exists. -/
def reSearchNum : List Char → Option String
  | [] => none
  | c :: rest =>
    if isNumChar c then
      let run := List.takeWhile isNumChar (c :: rest)
      let after := List.dropWhile isNumChar (c :: rest)
      let suf :=
        match after with
        | d :: _ => if d = 'K' ∨ d = 'M' ∨ d = 'B' then [d] else []
        | [] => []
      some (String.mk (run ++ suf))
    else reSearchNum rest

/-! ### DOM model

A mounted feed item (`article[data-testid="tweet"]`) is modelled by the
values its per-field Selenium lookups would produce.  `none` models a
failed lookup or an absent element; `stale` models the item raising during
processing (the `except Exception: continue` at lines 150-151), which in
the source can only fire before the body text is fingerprinted. -/

structure TweetItem where
  /-- Text of the first `div[data-testid="tweetText"]` child, `none` when
  no such element exists (lines 136-137). -/
  textEl : Option String
  /-- The item raises while being processed, so it is skipped whole. -/
  stale : Bool
  /-- `href` attributes of the anchors inside the first
  `div[data-testid="User-Name"]`; `none` models a missing div or a raising
  lookup (lines 101-102); an inner `none` models `get_attribute` returning
  `None` (line 105). -/
  authorDiv : Option (List (Option String))
  /-- `href` of the link wrapping the `time` element; `none` models the
  raising lookup of lines 35-38. -/
  timeLink : Option String
  /-- `src` attributes of `div[data-testid="tweetPhoto"] img` elements
  (lines 46-50); an inner `none` models an absent attribute. -/
  imgSrcs : List (Option String)
  /-- `poster` attributes of `div[data-testid="videoPlayer"] video`
  elements (lines 54-58). -/
  vidPosters : List (Option String)
  /-- The media lookup raises before collecting anything (lines 59-60). -/
  mediaFails : Bool
  /-- `aria-label` of the first element matching `[data-testid="like"]`:
  `none` = no element matched (line 120-121), `some none` = element
  present but attribute absent (line 122). -/
  likeAria : Option (Option String)
  /-- Same for `[data-testid="retweet"]`. -/
  retweetAria : Option (Option String)
deriving Repr, DecidableEq

/-- A harvested row, the dict built at lines 142-149. -/
structure Record where
  account : String
  tweet_url : String
  text : String
  media_links : String
  likes : String
  retweets : String
deriving Repr, DecidableEq

/-! ### Field extractors -/

/-- `_get_tweet_link` (lines 31-38): the `href` of the link wrapping the
timestamp; any failure degrades to `""`. -/
def get_tweet_link (t : Option String) : String :=
  t.getD ""

/-- Inner loop of `_get_tweet_author` (lines 104-111): walk the anchor
list, skip status permalinks, and return `"@" ++ handle` for the first
qualifying handle. -/
def authorFrom : List (Option String) → String
  | [] => ""
  | a :: rest =>
    let href := a.getD ""
    if strHas href "/status/" then authorFrom rest
    else
      let parts := splitSlash (rstripSlash href)
      let handle := parts.getLastD ""
      if handle ≠ "" ∧ lowerStr handle ∉ (["com", "x", "i", "intent"] : List String) then
        "@" ++ handle
      else authorFrom rest

/-- `_get_tweet_author` (lines 98-114): empty string when the `User-Name`
div is missing or the lookup raises. -/
def get_tweet_author (d : Option (List (Option String))) : String :=
  match d with
  | none => ""
  | some links => authorFrom links

/-- The media link list collected at lines 42-58: truthy image `src`
values, then truthy video `poster` values tagged with a `"Poster: "`
marker. -/
def mediaList (it : TweetItem) : List String :=
  (it.imgSrcs.filterMap id).filter (fun s => s ≠ "") ++
    ((it.vidPosters.filterMap id).filter (fun s => s ≠ "")).map
      (fun p => "Poster: " ++ p)

/-- `_get_tweet_media_links` (lines 40-62): `" | "`-joined links, or the
literal `"text-only"` marker when nothing was collected (also when the
lookup raised before collecting anything). -/
def get_tweet_media_links (it : TweetItem) : String :=
  if it.mediaFails then "text-only"
  else if mediaList it = [] then "text-only"
  else joinSep " | " (mediaList it)

/-- `_get_tweet_engagement` (lines 116-127) applied to the matched element
list for a `data-testid` kind: `""` when no element matched, the
`aria-label` is absent, or the numeric regex finds no match. -/
def get_tweet_engagement (el : Option (Option String)) : String :=
  match el with
  | none => ""
  | some aria0 => (reSearchNum (aria0.getD "").data).getD ""

/-- The trimmed body text of line 137:
`(text_el[0].text if text_el else "").strip()`. -/
def tweetText (it : TweetItem) : String :=
  pyStrip (it.textEl.getD "")

/-- The record dict built at lines 142-149. -/
def extractTweet (it : TweetItem) : Record :=
  { account := get_tweet_author it.authorDiv
  , tweet_url := get_tweet_link it.timeLink
  , text := tweetText it
  , media_links := get_tweet_media_links it
  , likes := get_tweet_engagement it.likeAria
  , retweets := get_tweet_engagement it.retweetAria }

/-- `scrape_visible_tweets` (lines 129-154): walk the mounted items,
skip raising items, skip blank or already-seen bodies, record each new
body in the seen set (a Python `set`, modelled as a duplicate-free list in
insertion order) and emit the extracted record.  Returns the new records
and the updated seen set. -/
def scrape_visible_tweets : List TweetItem → List String → List Record × List String
  | [], seen => ([], seen)
  | it :: rest, seen =>
    if it.stale then scrape_visible_tweets rest seen
    else
      let t := tweetText it
      if t = "" ∨ t ∈ seen then scrape_visible_tweets rest seen
      else
        let p := scrape_visible_tweets rest (seen ++ [t])
        (extractTweet it :: p.1, p.2)

/-! ### Feed locator and scroll driver -/

/-- One element of the ancestor chain walked by the JavaScript of
`_get_scrollable_feed` (lines 68-80): the chain starts at the first
mounted feed item and stops before `document.body`. -/
structure AncestorInfo where
  scrollHeight : Nat
  clientHeight : Nat
  /-- Resolved `overflowY || overflow` computed style value. -/
  overflowY : String
  isScrollingElement : Bool
deriving Repr, DecidableEq

/-- DOM snapshot at feed-locator time: the mounted feed items and the
ancestor chain of the first one. -/
structure Dom where
  tweets : List TweetItem
  chain : List AncestorInfo
deriving Repr, DecidableEq

/-- Result of the locator: either the `i`-th element of the walked chain,
or the document's own scrolling element (the JavaScript fallback
`document.scrollingElement || document.documentElement`, line 80). -/
inductive ScrollTarget
  | chainEl (i : Nat)
  | documentScroller
deriving Repr, DecidableEq

/-- The JavaScript ancestor walk of lines 68-80: first chain element whose
content height exceeds its client height and whose overflow style is
`auto`/`scroll`/`overlay` (or which is the document scrolling element). -/
def walkChain : List AncestorInfo → Nat → ScrollTarget
  | [], _ => .documentScroller
  | a :: rest, i =>
    if a.clientHeight < a.scrollHeight ∧
        (a.overflowY ∈ (["auto", "scroll", "overlay"] : List String) ∨
          a.isScrollingElement) then
      .chainEl i
    else walkChain rest (i + 1)

/-- `_get_scrollable_feed` (lines 64-83): `none` when no feed item is
mounted, otherwise the walked scroll target (never `none` in that case,
thanks to the JavaScript fallback). -/
def get_scrollable_feed (dom : Dom) : Option ScrollTarget :=
  if dom.tweets.isEmpty then none
  else some (walkChain dom.chain 0)

/-- The JavaScript scroll command issued by `_scroll_feed`. -/
inductive ScrollCmd
  | elementBy (amount : Int)
  | elementToBottom
  | windowBy (amount : Int)
  | windowToBottom
deriving Repr, DecidableEq

/-- `_scroll_feed` (lines 85-96): element-level scroll when a target was
resolved, whole-window fallback otherwise; relative advance when an
amount is given, jump-to-bottom otherwise. -/
def scroll_feed (scrollable : Option ScrollTarget) (amount : Option Int) : ScrollCmd :=
  match scrollable, amount with
  | some _, some a => .elementBy a
  | some _, none => .elementToBottom
  | none, some a => .windowBy a
  | none, none => .windowToBottom

/-! ### The harvesting loop (lines 193-214) -/

/-- Environment of one loop iteration: either the liveness check /
collaborator raises (browser closed, line 196 or 211), or the feed
presents the given mounted items to `scrape_visible_tweets`. -/
inductive PassEvent
  | closed
  | content (items : List TweetItem)
deriving Repr, DecidableEq

/-- Mutable state observed across loop iterations: the captured rows
(`rows_list`), the seen-fingerprint set (`seen`), plus logs of the scroll
commands issued (paired with `len(rows_list)` at issue time) and of the
settle sleeps (in seconds). -/
structure LoopState where
  rows : List Record
  seen : List String
  scrolls : List (ScrollCmd × Nat)
  sleeps : List Nat
deriving Repr, DecidableEq

/-- Terminal state of a run.  `cut` is not a state of the program: it
marks that the supplied event trace ended while the loop was still
running, so the run was only observed up to that point. -/
inductive Terminal
  | fatalPre
  | targetReached
  | terminated
  | cut
deriving Repr, DecidableEq

/-- The `for item in new_data` admission loop of lines 199-202: append
each item while `len(rows_list) < max_tweets` still holds. -/
def appendCapped (maxT : Nat) : List Record → List Record → List Record
  | rows, [] => rows
  | rows, r :: rest =>
    appendCapped maxT (if rows.length < maxT then rows ++ [r] else rows) rest

/-- The `while len(rows_list) < max_tweets` loop of lines 193-214, driven
by the event trace: check the bound, consume one pass event, scrape,
admit under the cap, break on target reached (before any scroll), else
issue the 700-pixel scroll and the 3-second settle sleep and continue.
A `closed` event models the catch-all `except` of lines 211-214. -/
def scLoop (scrollable : Option ScrollTarget) (maxT : Nat) :
    List PassEvent → LoopState → LoopState × Terminal
  | [], st =>
    if maxT ≤ st.rows.length then (st, .targetReached) else (st, .cut)
  | ev :: rest, st =>
    if maxT ≤ st.rows.length then (st, .targetReached)
    else
      match ev with
      | .closed => (st, .terminated)
      | .content items =>
        let p := scrape_visible_tweets items st.seen
        let rows' := appendCapped maxT st.rows p.1
        if maxT ≤ rows'.length then
          ({ st with rows := rows', seen := p.2 }, .targetReached)
        else
          scLoop scrollable maxT rest
            { rows := rows'
            , seen := p.2
            , scrolls := st.scrolls ++ [(scroll_feed scrollable (some 700), rows'.length)]
            , sleeps := st.sleeps ++ [3] }

/-! ### The orchestrator `run_full_x_scraper` (lines 158-232) -/

/-- Environment of one full run. -/
structure World where
  /-- The pre-loop phase (navigation, waits, News click, lines 172-190)
  raises before the scraping loop is entered. -/
  loadFails : Bool
  /-- DOM snapshot when `_get_scrollable_feed` runs (line 190). -/
  initialDom : Dom
  /-- Per-iteration environment of the scraping loop. -/
  events : List PassEvent
  /-- The `import pandas` at lines 11-14 succeeded (`pd is not None`). -/
  pdAvailable : Bool
  /-- `df.to_excel` (line 222) raises. -/
  flushRaises : Bool
deriving Repr, DecidableEq

/-- How a run ends for the caller: a normally returned value, a
propagated exception, or the observation being cut short. -/
inductive Outcome
  | ok (filepath : String)
  | exn
  | cut
deriving Repr, DecidableEq

/-- The column order imposed on the DataFrame at lines 220-221. -/
def cols : List String :=
  ["account", "tweet_url", "text", "media_links", "likes", "retweets"]

/-- Column lookup by name, mirroring `df[cols]` selecting columns of the
dict-built DataFrame. -/
def colValue (r : Record) : String → String
  | "account" => r.account
  | "tweet_url" => r.tweet_url
  | "text" => r.text
  | "media_links" => r.media_links
  | "likes" => r.likes
  | "retweets" => r.retweets
  | _ => ""

/-- One spreadsheet row of a record, in the fixed column order. -/
def rowOf (r : Record) : List String :=
  cols.map (colValue r)

/-- The timestamped output path computed at lines 167-168. -/
def xFilePath (out_dir now : String) : String :=
  out_dir ++ "/x_tweets_" ++ now ++ ".xlsx"

/-- Everything observable about one run. -/
structure RunResult where
  outcome : Outcome
  terminal : Terminal
  rows : List Record
  seen : List String
  /-- Contents passed to each `df.to_excel` flush invocation. -/
  flushCalls : List (List Record)
  /-- The spreadsheet actually written, as rows of column values. -/
  fileWritten : Option (List (List String))
  /-- `driver.quit()` was reached (lines 227-230; it never raises). -/
  quitCalled : Bool
  scrolls : List (ScrollCmd × Nat)
  sleeps : List Nat
deriving Repr, DecidableEq

/-- `run_full_x_scraper` (lines 158-232).  A pre-loop failure skips the
loop, runs the `finally` (no rows, so no flush; `quit` guarded) and
propagates the exception.  Otherwise the scroll target is resolved once,
the loop runs, and the `finally` flushes iff rows exist and pandas is
available; a raising flush aborts the `finally` before `driver.quit()`.
The function returns the path computed at start whenever it returns. -/
def run_full_x_scraper (w : World) (out_dir : String) (max_tweets : Nat)
    (now : String) : RunResult :=
  let filepath := xFilePath out_dir now
  if w.loadFails then
    { outcome := .exn, terminal := .fatalPre, rows := [], seen := []
    , flushCalls := [], fileWritten := none, quitCalled := true
    , scrolls := [], sleeps := [] }
  else
    let scrollable := get_scrollable_feed w.initialDom
    let p := scLoop scrollable max_tweets w.events ⟨[], [], [], []⟩
    let st := p.1
    match p.2 with
    | .cut =>
      { outcome := .cut, terminal := .cut, rows := st.rows, seen := st.seen
      , flushCalls := [], fileWritten := none, quitCalled := false
      , scrolls := st.scrolls, sleeps := st.sleeps }
    | term =>
      if st.rows ≠ [] ∧ w.pdAvailable then
        if w.flushRaises then
          { outcome := .exn, terminal := term, rows := st.rows, seen := st.seen
          , flushCalls := [st.rows], fileWritten := none, quitCalled := false
          , scrolls := st.scrolls, sleeps := st.sleeps }
        else
          { outcome := .ok filepath, terminal := term, rows := st.rows
          , seen := st.seen, flushCalls := [st.rows]
          , fileWritten := some (st.rows.map rowOf), quitCalled := true
          , scrolls := st.scrolls, sleeps := st.sleeps }
      else
        { outcome := .ok filepath, terminal := term, rows := st.rows
        , seen := st.seen, flushCalls := [], fileWritten := none
        , quitCalled := true, scrolls := st.scrolls, sleeps := st.sleeps }

/-! ### Specification-side helper: first-occurrence deduplication -/

/-- The non-blank body texts presented by a pass, in arrival order,
raising items excluded. -/
def presentedBodies : List TweetItem → List String
  | [] => []
  | it :: rest =>
    if it.stale then presentedBodies rest
    else tweetText it :: presentedBodies rest

/-- Keep the first occurrence of each body not yet seen and not blank, in
arrival order. -/
def dedupFirst : List String → List String → List String
  | [], _ => []
  | t :: ts, seen =>
    if t = "" ∨ t ∈ seen then dedupFirst ts seen
    else t :: dedupFirst ts (seen ++ [t])

/-! ### Lemmas about `scrape_visible_tweets` -/

theorem extractTweet_text (it : TweetItem) :
    (extractTweet it).text = tweetText it := rfl

/-- The updated seen set is the input seen set extended by the admitted
bodies, in admission order. -/
theorem scrape_seen_eq (items : List TweetItem) (seen : List String) :
    (scrape_visible_tweets items seen).2 =
      seen ++ ((scrape_visible_tweets items seen).1.map Record.text) := by
  induction items generalizing seen with
  | nil => simp [scrape_visible_tweets]
  | cons it rest ih =>
    by_cases hs : it.stale
    · simp [scrape_visible_tweets, hs, ih]
    · by_cases hb : tweetText it = "" ∨ tweetText it ∈ seen
      · simp [scrape_visible_tweets, hs, hb, ih]
      · simp only [scrape_visible_tweets, hs, hb, if_false, Bool.false_eq_true,
          if_neg, List.map_cons, extractTweet_text]
        rw [ih (seen ++ [tweetText it])]
        simp

/-- Every admitted record has a body that was not yet seen, is non-blank,
and is the extraction of some non-raising presented item. -/
theorem scrape_mem (items : List TweetItem) (seen : List String)
    (r : Record) (hr : r ∈ (scrape_visible_tweets items seen).1) :
    r.text ∉ seen ∧ r.text ≠ "" ∧
      ∃ it, it ∈ items ∧ it.stale = false ∧ r = extractTweet it := by
  induction items generalizing seen with
  | nil => simp [scrape_visible_tweets] at hr
  | cons it rest ih =>
    by_cases hs : it.stale
    · rw [scrape_visible_tweets, if_pos hs] at hr
      obtain ⟨h1, h2, it', h3, h4, h5⟩ := ih seen hr
      exact ⟨h1, h2, it', List.mem_cons_of_mem _ h3, h4, h5⟩
    · by_cases hb : tweetText it = "" ∨ tweetText it ∈ seen
      · rw [scrape_visible_tweets, if_neg hs, if_pos hb] at hr
        obtain ⟨h1, h2, it', h3, h4, h5⟩ := ih seen hr
        exact ⟨h1, h2, it', List.mem_cons_of_mem _ h3, h4, h5⟩
      · rw [scrape_visible_tweets, if_neg hs, if_neg hb] at hr
        push_neg at hb
        rcases List.mem_cons.mp hr with h | h
        · subst h
          exact ⟨by simpa [extractTweet_text] using hb.2,
            by simpa [extractTweet_text] using hb.1,
            it, List.mem_cons_self _ _, Bool.not_eq_true _ ▸ by simpa using hs, rfl⟩
        · obtain ⟨h1, h2, it', h3, h4, h5⟩ := ih (seen ++ [tweetText it]) h
          refine ⟨fun hc => h1 (List.mem_append_left _ hc), h2,
            it', List.mem_cons_of_mem _ h3, h4, h5⟩

/-- The admitted bodies of one pass are pairwise distinct. -/
theorem scrape_nodup (items : List TweetItem) (seen : List String) :
    ((scrape_visible_tweets items seen).1.map Record.text).Nodup := by
  induction items generalizing seen with
  | nil => simp [scrape_visible_tweets]
  | cons it rest ih =>
    by_cases hs : it.stale
    · rw [scrape_visible_tweets, if_pos hs]; exact ih seen
    · by_cases hb : tweetText it = "" ∨ tweetText it ∈ seen
      · rw [scrape_visible_tweets, if_neg hs, if_pos hb]; exact ih seen
      · rw [scrape_visible_tweets, if_neg hs, if_neg hb]
        simp only [List.map_cons, List.nodup_cons, extractTweet_text]
        constructor
        · intro hc
          obtain ⟨r, hr, hrt⟩ := List.mem_map.mp hc
          have := (scrape_mem rest (seen ++ [tweetText it]) r hr).1
          exact this (hrt ▸ List.mem_append_right _ (List.mem_singleton_self _))
        · exact ih (seen ++ [tweetText it])

/-- Characterization of one pass: the admitted bodies are exactly the
first occurrences of the presented non-blank bodies that were not yet
seen, in arrival order. -/
theorem scrape_texts (items : List TweetItem) (seen : List String) :
    (scrape_visible_tweets items seen).1.map Record.text =
      dedupFirst (presentedBodies items) seen := by
  induction items generalizing seen with
  | nil => simp [scrape_visible_tweets, presentedBodies, dedupFirst]
  | cons it rest ih =>
    by_cases hs : it.stale
    · rw [scrape_visible_tweets, if_pos hs, presentedBodies, if_pos hs]
      exact ih seen
    · by_cases hb : tweetText it = "" ∨ tweetText it ∈ seen
      · rw [scrape_visible_tweets, if_neg hs, if_pos hb,
          presentedBodies, if_neg hs, dedupFirst, if_pos hb]
        exact ih seen
      · rw [scrape_visible_tweets, if_neg hs, if_neg hb,
          presentedBodies, if_neg hs, dedupFirst, if_neg hb]
        simp only [List.map_cons, extractTweet_text]
        rw [ih (seen ++ [tweetText it])]

/-- Re-presenting an already-seen (or blank) body at the end of a pass
changes nothing: neither the records nor the seen set. -/
theorem scrape_append_seen (items : List TweetItem) (seen : List String)
    (it : TweetItem) (h : tweetText it = "" ∨ tweetText it ∈ seen) :
    scrape_visible_tweets (items ++ [it]) seen =
      scrape_visible_tweets items seen := by
  induction items generalizing seen with
  | nil =>
    by_cases hs : it.stale
    · simp [scrape_visible_tweets, hs]
    · simp [scrape_visible_tweets, hs, h]
  | cons it' rest ih =>
    by_cases hs : it'.stale
    · rw [List.cons_append, scrape_visible_tweets, if_pos hs,
        scrape_visible_tweets, if_pos hs]
      exact ih seen h
    · by_cases hb : tweetText it' = "" ∨ tweetText it' ∈ seen
      · rw [List.cons_append, scrape_visible_tweets, if_neg hs, if_pos hb,
          scrape_visible_tweets, if_neg hs, if_pos hb]
        exact ih seen h
      · rw [List.cons_append, scrape_visible_tweets, if_neg hs, if_neg hb,
          scrape_visible_tweets, if_neg hs, if_neg hb]
        have h' : tweetText it = "" ∨ tweetText it ∈ seen ++ [tweetText it'] :=
          h.imp id (fun hm => List.mem_append_left _ hm)
        rw [ih (seen ++ [tweetText it']) h']

/-! ### Lemmas about the capped admission loop -/

theorem appendCapped_of_full (maxT : Nat) (rows : List Record)
    (l : List Record) (h : maxT ≤ rows.length) :
    appendCapped maxT rows l = rows := by
  induction l generalizing rows with
  | nil => rfl
  | cons r rest ih =>
    rw [appendCapped, if_neg (not_lt.mpr h)]
    exact ih rows h

/-- The admission loop of lines 199-202 appends exactly the remaining
capacity's worth of new records, in order. -/
theorem appendCapped_eq_take (maxT : Nat) (rows l : List Record)
    (h : rows.length ≤ maxT) :
    appendCapped maxT rows l = rows ++ l.take (maxT - rows.length) := by
  induction l generalizing rows with
  | nil => simp [appendCapped]
  | cons r rest ih =>
    rw [appendCapped]
    by_cases hlt : rows.length < maxT
    · rw [if_pos hlt, ih (rows ++ [r]) (by simp; omega)]
      have h1 : maxT - rows.length = (maxT - (rows.length + 1)) + 1 := by omega
      rw [List.length_append, List.length_singleton, h1, List.take_succ_cons,
        List.append_assoc, List.singleton_append]
    · rw [if_neg hlt]
      have heq : maxT - rows.length = 0 := by omega
      rw [appendCapped_of_full _ _ _ (not_lt.mp hlt), heq, List.take_zero,
        List.append_nil]

theorem appendCapped_length (maxT : Nat) (rows l : List Record)
    (h : rows.length ≤ maxT) :
    (appendCapped maxT rows l).length = min maxT (rows.length + l.length) := by
  rw [appendCapped_eq_take _ _ _ h, List.length_append, List.length_take]
  omega

/-! ### The loop invariant -/

/-- Invariant maintained by the scraping loop over its observable state:
the capacity bound, body membership in the seen set, non-blank bodies,
per-session uniqueness of bodies, every scroll issued below capacity and
with the fixed 700-pixel command, and one 3-second settle sleep per
scroll. -/
def Inv (scrollable : Option ScrollTarget) (maxT : Nat) (st : LoopState) : Prop :=
  st.rows.length ≤ maxT ∧
  (∀ r ∈ st.rows, r.text ∈ st.seen ∧ r.text ≠ "") ∧
  (st.rows.map Record.text).Nodup ∧
  (∀ pr ∈ st.scrolls, pr.2 < maxT ∧ pr.1 = scroll_feed scrollable (some 700)) ∧
  (∀ s ∈ st.sleeps, s = 3) ∧
  st.sleeps.length = st.scrolls.length

/-- Effect of one content pass on the captured rows. -/
theorem rows_step (maxT : Nat) (st : LoopState) (items : List TweetItem)
    (hlen : st.rows.length ≤ maxT)
    (hseen : ∀ r ∈ st.rows, r.text ∈ st.seen ∧ r.text ≠ "")
    (hnd : (st.rows.map Record.text).Nodup) :
    (appendCapped maxT st.rows (scrape_visible_tweets items st.seen).1).length
        = min maxT (st.rows.length + (scrape_visible_tweets items st.seen).1.length) ∧
    (∀ r ∈ appendCapped maxT st.rows (scrape_visible_tweets items st.seen).1,
        r.text ∈ (scrape_visible_tweets items st.seen).2 ∧ r.text ≠ "") ∧
    ((appendCapped maxT st.rows (scrape_visible_tweets items st.seen).1).map
        Record.text).Nodup ∧
    (∃ ext, appendCapped maxT st.rows (scrape_visible_tweets items st.seen).1
        = st.rows ++ ext) := by
  have htake := appendCapped_eq_take maxT st.rows
    (scrape_visible_tweets items st.seen).1 hlen
  have hseeneq := scrape_seen_eq items st.seen
  refine ⟨appendCapped_length _ _ _ hlen, ?_, ?_, ?_⟩
  · intro r hr
    rw [htake] at hr
    rcases List.mem_append.mp hr with h | h
    · exact ⟨hseeneq ▸ List.mem_append_left _ (hseen r h).1, (hseen r h).2⟩
    · have hmem : r ∈ (scrape_visible_tweets items st.seen).1 :=
        List.take_subset _ _ h
      refine ⟨hseeneq ▸ List.mem_append_right _ ?_,
        (scrape_mem items st.seen r hmem).2.1⟩
      exact List.mem_map_of_mem _ hmem
  · rw [htake, List.map_append, List.nodup_append]
    refine ⟨hnd, ?_, ?_⟩
    · rw [List.map_take]
      exact List.Nodup.sublist (List.take_sublist _ _) (scrape_nodup items st.seen)
    · intro a ha hb
      obtain ⟨r, hr, hrt⟩ := List.mem_map.mp ha
      obtain ⟨r', hr', hrt'⟩ := List.mem_map.mp hb
      have hr'' : r' ∈ (scrape_visible_tweets items st.seen).1 :=
        List.take_subset _ _ hr'
      exact (scrape_mem items st.seen r' hr'').1
        (hrt' ▸ hrt ▸ (hseen r hr).1)
  · exact ⟨_, htake⟩

/-- The scraping loop preserves the invariant; it ends in
`targetReached` exactly when the capacity is exactly filled; previously
captured rows are only ever extended at the back; and the seen set only
grows. -/
theorem scLoop_inv (scrollable : Option ScrollTarget) (maxT : Nat)
    (evs : List PassEvent) : ∀ (st : LoopState), Inv scrollable maxT st →
    Inv scrollable maxT (scLoop scrollable maxT evs st).1 ∧
    ((scLoop scrollable maxT evs st).2 = Terminal.targetReached ↔
      (scLoop scrollable maxT evs st).1.rows.length = maxT) ∧
    (∃ ext, (scLoop scrollable maxT evs st).1.rows = st.rows ++ ext) ∧
    (∀ s ∈ st.seen, s ∈ (scLoop scrollable maxT evs st).1.seen) := by
  induction evs with
  | nil =>
    intro st hI
    simp only [scLoop]
    by_cases hge : maxT ≤ st.rows.length
    · rw [if_pos hge]
      exact ⟨hI, ⟨fun _ => le_antisymm hI.1 hge, fun _ => rfl⟩,
        ⟨[], (List.append_nil _).symm⟩, fun s hs => hs⟩
    · rw [if_neg hge]
      exact ⟨hI, ⟨fun h => Terminal.noConfusion h,
          fun h => absurd (le_of_eq h.symm) hge⟩,
        ⟨[], (List.append_nil _).symm⟩, fun s hs => hs⟩
  | cons ev rest ih =>
    intro st hI
    by_cases hge : maxT ≤ st.rows.length
    · simp only [scLoop]
      rw [if_pos hge]
      exact ⟨hI, ⟨fun _ => le_antisymm hI.1 hge, fun _ => rfl⟩,
        ⟨[], (List.append_nil _).symm⟩, fun s hs => hs⟩
    · cases ev with
      | closed =>
        simp only [scLoop]
        rw [if_neg hge]
        exact ⟨hI, ⟨fun h => Terminal.noConfusion h,
            fun h => absurd (le_of_eq h.symm) hge⟩,
          ⟨[], (List.append_nil _).symm⟩, fun s hs => hs⟩
      | content items =>
        obtain ⟨hlen, hseen, hnd, hscr, hslp, hsl⟩ := hI
        obtain ⟨hlen', hmem', hnd', ext0, hext0⟩ :=
          rows_step maxT st items hlen hseen hnd
        have hle' :
            (appendCapped maxT st.rows
              (scrape_visible_tweets items st.seen).1).length ≤ maxT := by
          rw [hlen']; exact min_le_left _ _
        have hseensub : ∀ s ∈ st.seen,
            s ∈ (scrape_visible_tweets items st.seen).2 := by
          intro s hs
          rw [scrape_seen_eq]
          exact List.mem_append_left _ hs
        simp only [scLoop]
        rw [if_neg hge]
        by_cases h2 : maxT ≤
            (appendCapped maxT st.rows
              (scrape_visible_tweets items st.seen).1).length
        · rw [if_pos h2]
          refine ⟨⟨hle', hmem', hnd', hscr, hslp, hsl⟩,
            ⟨fun _ => le_antisymm hle' h2, fun _ => rfl⟩,
            ⟨ext0, hext0⟩, hseensub⟩
        · rw [if_neg h2]
          have hInv' : Inv scrollable maxT
              { rows := appendCapped maxT st.rows
                  (scrape_visible_tweets items st.seen).1
              , seen := (scrape_visible_tweets items st.seen).2
              , scrolls := st.scrolls ++
                  [(scroll_feed scrollable (some 700),
                    (appendCapped maxT st.rows
                      (scrape_visible_tweets items st.seen).1).length)]
              , sleeps := st.sleeps ++ [3] } := by
            refine ⟨hle', hmem', hnd', ?_, ?_, ?_⟩
            · intro pr hpr
              rcases List.mem_append.mp hpr with h | h
              · exact hscr pr h
              · rw [List.mem_singleton] at h
                exact h ▸ ⟨not_le.mp h2, rfl⟩
            · intro s hs
              rcases List.mem_append.mp hs with h | h
              · exact hslp s h
              · rwa [List.mem_singleton] at h
            · simp [hsl]
          obtain ⟨hI'', hiff'', ⟨ext1, hext1⟩, hmono''⟩ := ih _ hInv'
          refine ⟨hI'', hiff'', ⟨ext0 ++ ext1, ?_⟩, ?_⟩
          · rw [hext1]
            simp only [hext0, List.append_assoc]
          · intro s hs
            exact hmono'' s (hseensub s hs)

/-! ### Unfolding the orchestrator -/

/-- Closed form of a run whose pre-loop phase succeeded, in terms of the
loop's final state and terminal. -/
theorem run_eq (w : World) (dir now : String) (maxT : Nat)
    (hl : w.loadFails = false) (st : LoopState) (t : Terminal)
    (hq : scLoop (get_scrollable_feed w.initialDom) maxT w.events
      ⟨[], [], [], []⟩ = (st, t)) :
    run_full_x_scraper w dir maxT now =
      if t = Terminal.cut then
        { outcome := .cut, terminal := .cut, rows := st.rows, seen := st.seen
        , flushCalls := [], fileWritten := none, quitCalled := false
        , scrolls := st.scrolls, sleeps := st.sleeps }
      else if st.rows ≠ [] ∧ w.pdAvailable then
        if w.flushRaises then
          { outcome := .exn, terminal := t, rows := st.rows, seen := st.seen
          , flushCalls := [st.rows], fileWritten := none, quitCalled := false
          , scrolls := st.scrolls, sleeps := st.sleeps }
        else
          { outcome := .ok (xFilePath dir now), terminal := t, rows := st.rows
          , seen := st.seen, flushCalls := [st.rows]
          , fileWritten := some (st.rows.map rowOf), quitCalled := true
          , scrolls := st.scrolls, sleeps := st.sleeps }
      else
        { outcome := .ok (xFilePath dir now), terminal := t, rows := st.rows
        , seen := st.seen, flushCalls := [], fileWritten := none
        , quitCalled := true, scrolls := st.scrolls, sleeps := st.sleeps } := by
  simp only [run_full_x_scraper, hl, Bool.false_eq_true, if_false, hq]
  cases t <;> rfl

theorem run_rows (w : World) (dir now : String) (maxT : Nat)
    (hl : w.loadFails = false) (st : LoopState) (t : Terminal)
    (hq : scLoop (get_scrollable_feed w.initialDom) maxT w.events
      ⟨[], [], [], []⟩ = (st, t)) :
    (run_full_x_scraper w dir maxT now).rows = st.rows := by
  rw [run_eq w dir now maxT hl st t hq]
  split_ifs <;> rfl

theorem run_seen (w : World) (dir now : String) (maxT : Nat)
    (hl : w.loadFails = false) (st : LoopState) (t : Terminal)
    (hq : scLoop (get_scrollable_feed w.initialDom) maxT w.events
      ⟨[], [], [], []⟩ = (st, t)) :
    (run_full_x_scraper w dir maxT now).seen = st.seen := by
  rw [run_eq w dir now maxT hl st t hq]
  split_ifs <;> rfl

theorem run_scrolls (w : World) (dir now : String) (maxT : Nat)
    (hl : w.loadFails = false) (st : LoopState) (t : Terminal)
    (hq : scLoop (get_scrollable_feed w.initialDom) maxT w.events
      ⟨[], [], [], []⟩ = (st, t)) :
    (run_full_x_scraper w dir maxT now).scrolls = st.scrolls := by
  rw [run_eq w dir now maxT hl st t hq]
  split_ifs <;> rfl

theorem run_sleeps (w : World) (dir now : String) (maxT : Nat)
    (hl : w.loadFails = false) (st : LoopState) (t : Terminal)
    (hq : scLoop (get_scrollable_feed w.initialDom) maxT w.events
      ⟨[], [], [], []⟩ = (st, t)) :
    (run_full_x_scraper w dir maxT now).sleeps = st.sleeps := by
  rw [run_eq w dir now maxT hl st t hq]
  split_ifs <;> rfl

theorem run_terminal (w : World) (dir now : String) (maxT : Nat)
    (hl : w.loadFails = false) (st : LoopState) (t : Terminal)
    (hq : scLoop (get_scrollable_feed w.initialDom) maxT w.events
      ⟨[], [], [], []⟩ = (st, t)) :
    (run_full_x_scraper w dir maxT now).terminal = t := by
  rw [run_eq w dir now maxT hl st t hq]
  split_ifs with h1 h2 h3
  · exact h1.symm
  · rfl
  · rfl
  · rfl

/-- The scraping loop never produces the pre-loop fatal terminal. -/
theorem scLoop_ne_fatal (scrollable : Option ScrollTarget) (maxT : Nat) :
    ∀ (evs : List PassEvent) (st : LoopState),
    (scLoop scrollable maxT evs st).2 ≠ Terminal.fatalPre := by
  intro evs
  induction evs with
  | nil =>
    intro st
    simp only [scLoop]
    split_ifs <;> simp
  | cons ev rest ih =>
    intro st
    simp only [scLoop]
    split_ifs with h1
    · simp
    · cases ev with
      | closed => simp
      | content items =>
        dsimp only
        split_ifs with h2
        · simp
        · exact ih _

/-- For runs whose loop actually exited, flush is invoked exactly once
iff at least one row was captured and pandas imported, else never. -/
theorem run_flushCalls (w : World) (dir now : String) (maxT : Nat)
    (hl : w.loadFails = false) (st : LoopState) (t : Terminal)
    (hq : scLoop (get_scrollable_feed w.initialDom) maxT w.events
      ⟨[], [], [], []⟩ = (st, t)) (ht : t ≠ Terminal.cut) :
    (run_full_x_scraper w dir maxT now).flushCalls =
      if st.rows ≠ [] ∧ w.pdAvailable = true then [st.rows] else [] := by
  rw [run_eq w dir now maxT hl st t hq, if_neg ht]
  split_ifs <;> rfl

/-- `driver.quit()` is skipped exactly when the flush both happens and
raises. -/
theorem run_quit (w : World) (dir now : String) (maxT : Nat)
    (hl : w.loadFails = false) (st : LoopState) (t : Terminal)
    (hq : scLoop (get_scrollable_feed w.initialDom) maxT w.events
      ⟨[], [], [], []⟩ = (st, t)) (ht : t ≠ Terminal.cut) :
    ((run_full_x_scraper w dir maxT now).quitCalled = false ↔
      (st.rows ≠ [] ∧ w.pdAvailable = true ∧ w.flushRaises = true)) := by
  rw [run_eq w dir now maxT hl st t hq, if_neg ht]
  split_ifs with h1 h2
  · exact ⟨fun _ => ⟨h1.1, h1.2, h2⟩, fun _ => rfl⟩
  · exact ⟨fun h => absurd h (by simp), fun hc => absurd hc.2.2 h2⟩
  · exact ⟨fun h => absurd h (by simp), fun hc => absurd ⟨hc.1, hc.2.1⟩ h1⟩

/-- A file is written exactly when the flush happens and does not raise,
and it holds one row per captured record in column order. -/
theorem run_fileWritten (w : World) (dir now : String) (maxT : Nat)
    (hl : w.loadFails = false) (st : LoopState) (t : Terminal)
    (hq : scLoop (get_scrollable_feed w.initialDom) maxT w.events
      ⟨[], [], [], []⟩ = (st, t)) (ht : t ≠ Terminal.cut) :
    (run_full_x_scraper w dir maxT now).fileWritten =
      if st.rows ≠ [] ∧ w.pdAvailable = true ∧ w.flushRaises = false then
        some (st.rows.map rowOf)
      else none := by
  rw [run_eq w dir now maxT hl st t hq, if_neg ht]
  split_ifs <;> first | rfl | simp_all

/-- The only value a completed run can return is the path computed at
start; it raises exactly when the flush raises. -/
theorem run_outcome (w : World) (dir now : String) (maxT : Nat)
    (hl : w.loadFails = false) (st : LoopState) (t : Terminal)
    (hq : scLoop (get_scrollable_feed w.initialDom) maxT w.events
      ⟨[], [], [], []⟩ = (st, t)) (ht : t ≠ Terminal.cut) :
    (run_full_x_scraper w dir maxT now).outcome =
      if st.rows ≠ [] ∧ w.pdAvailable = true ∧ w.flushRaises = true then
        Outcome.exn
      else Outcome.ok (xFilePath dir now) := by
  rw [run_eq w dir now maxT hl st t hq, if_neg ht]
  split_ifs <;> first | rfl | simp_all

/-- A run whose pre-loop phase raised: the loop never runs, the
`finally` finds no rows (so no flush) and reaches `driver.quit()`, and
the exception propagates. -/
theorem run_fatal (w : World) (dir now : String) (maxT : Nat)
    (hl : w.loadFails = true) :
    run_full_x_scraper w dir maxT now =
      { outcome := .exn, terminal := .fatalPre, rows := [], seen := []
      , flushCalls := [], fileWritten := none, quitCalled := true
      , scrolls := [], sleeps := [] } := by
  simp only [run_full_x_scraper]
  rw [if_pos hl]

/-- Run-level invariant: capacity bound, bodies seen and non-blank,
per-session body uniqueness, every scroll issued before the bound was met
and with the fixed command, all settle sleeps of 3 seconds, and the
characterization of the target-reached terminal. -/
theorem run_inv (w : World) (dir now : String) (maxT : Nat) :
    (run_full_x_scraper w dir maxT now).rows.length ≤ maxT ∧
    (∀ rec ∈ (run_full_x_scraper w dir maxT now).rows,
      rec.text ∈ (run_full_x_scraper w dir maxT now).seen ∧ rec.text ≠ "") ∧
    ((run_full_x_scraper w dir maxT now).rows.map Record.text).Nodup ∧
    (∀ pr ∈ (run_full_x_scraper w dir maxT now).scrolls,
      pr.2 < maxT ∧
        pr.1 = scroll_feed (get_scrollable_feed w.initialDom) (some 700)) ∧
    (∀ s ∈ (run_full_x_scraper w dir maxT now).sleeps, s = 3) ∧
    (run_full_x_scraper w dir maxT now).sleeps.length =
      (run_full_x_scraper w dir maxT now).scrolls.length ∧
    ((run_full_x_scraper w dir maxT now).terminal = Terminal.targetReached ↔
      (w.loadFails = false ∧
        (run_full_x_scraper w dir maxT now).rows.length = maxT)) := by
  rcases hl : w.loadFails with _ | _
  · rcases hq : scLoop (get_scrollable_feed w.initialDom) maxT w.events
      ⟨[], [], [], []⟩ with ⟨st, t⟩
    have hInv0 : Inv (get_scrollable_feed w.initialDom) maxT ⟨[], [], [], []⟩ :=
      ⟨by simp, by simp, by simp, by simp, by simp, rfl⟩
    obtain ⟨hI, hiff, _, _⟩ :=
      scLoop_inv (get_scrollable_feed w.initialDom) maxT w.events
        ⟨[], [], [], []⟩ hInv0
    rw [hq] at hI hiff
    obtain ⟨h1, h2, h3, h4, h5, h6⟩ := hI
    rw [run_rows w dir now maxT hl st t hq, run_seen w dir now maxT hl st t hq,
      run_scrolls w dir now maxT hl st t hq,
      run_sleeps w dir now maxT hl st t hq,
      run_terminal w dir now maxT hl st t hq]
    exact ⟨h1, h2, h3, h4, h5, h6,
      ⟨fun ht => ⟨rfl, hiff.mp ht⟩, fun hc => hiff.mpr hc.2⟩⟩
  · rw [run_fatal w dir now maxT hl]
    refine ⟨by simp, by simp, by simp, by simp, by simp, by simp, ?_⟩
    constructor
    · intro ht
      exact absurd ht (by simp)
    · intro hc
      exact absurd hc.1 (by simp)

/-! ### Sample inputs used by the claim witnesses -/

/-- A fully-populated mounted item. -/
def itemA : TweetItem :=
  { textEl := some "  hello world  ", stale := false
  , authorDiv := some [some "https://x.com/alice/status/1",
      some "https://x.com/alice"]
  , timeLink := some "https://x.com/alice/status/1"
  , imgSrcs := [some "https://pbs.example/a.jpg"]
  , vidPosters := [], mediaFails := false
  , likeAria := some (some "1,234 Likes. Like")
  , retweetAria := some (some "56 reposts. Repost") }

/-- A minimal mounted item carrying only a body text. -/
def mkItem (body : String) : TweetItem :=
  { textEl := some body, stale := false, authorDiv := none, timeLink := none
  , imgSrcs := [], vidPosters := [], mediaFails := false
  , likeAria := none, retweetAria := none }

/-! ### Claims -/

/-- Claim C1, counterexample.  Two concrete runs refute the claim as
stated.  First run: loading completes and the browser closes on the first
pass, a terminal state (`terminated`) with zero records — yet flush is
never invoked (the `finally` of lines 216-225 guards the flush with
`if rows_list and pd`), so "the records captured so far (possibly zero)
are persisted exactly once" fails.  Second run: one record is captured,
flush is invoked but raises — and `driver.quit()` is never reached,
because line 222 is inside the `finally` and an exception there aborts
the rest of the block, so "close() still runs even if the flush itself
raises" fails. -/
theorem C1_counterexample :
    ((run_full_x_scraper
        { loadFails := false, initialDom := ⟨[], []⟩
        , events := [PassEvent.closed]
        , pdAvailable := true, flushRaises := false } "d" 5 "t").terminal =
          Terminal.terminated ∧
      (run_full_x_scraper
        { loadFails := false, initialDom := ⟨[], []⟩
        , events := [PassEvent.closed]
        , pdAvailable := true, flushRaises := false } "d" 5 "t").flushCalls =
          []) ∧
    ((run_full_x_scraper
        { loadFails := false, initialDom := ⟨[itemA], []⟩
        , events := [PassEvent.content [itemA]]
        , pdAvailable := true, flushRaises := true } "d" 1 "t").flushCalls ≠
          [] ∧
      (run_full_x_scraper
        { loadFails := false, initialDom := ⟨[itemA], []⟩
        , events := [PassEvent.content [itemA]]
        , pdAvailable := true, flushRaises := true } "d" 1 "t").quitCalled =
          false) := by
  refine ⟨⟨?_, ?_⟩, ?_, ?_⟩ <;> decide

/-- Claim C1, amended: after loading completes, for any terminal state of
the loop, flush is invoked exactly once if and only if at least one
record was captured and the spreadsheet library is available (in
particular, zero-record terminations never flush); `driver.quit()` runs
on every such path except that a raising flush skips it; and for fatal
failures before any content exists, flush is never invoked while
`driver.quit()` still runs. -/
theorem C1_flush_and_close (w : World) (dir now : String) (maxT : Nat) :
    ((run_full_x_scraper w dir maxT now).terminal = Terminal.targetReached ∨
      (run_full_x_scraper w dir maxT now).terminal = Terminal.terminated →
      ((run_full_x_scraper w dir maxT now).rows ≠ [] ∧ w.pdAvailable = true →
        (run_full_x_scraper w dir maxT now).flushCalls =
          [(run_full_x_scraper w dir maxT now).rows]) ∧
      ((run_full_x_scraper w dir maxT now).rows = [] ∨ w.pdAvailable = false →
        (run_full_x_scraper w dir maxT now).flushCalls = []) ∧
      ((run_full_x_scraper w dir maxT now).quitCalled = false ↔
        (run_full_x_scraper w dir maxT now).flushCalls ≠ [] ∧
          w.flushRaises = true)) ∧
    ((run_full_x_scraper w dir maxT now).terminal = Terminal.fatalPre →
      (run_full_x_scraper w dir maxT now).flushCalls = [] ∧
      (run_full_x_scraper w dir maxT now).quitCalled = true) := by
  rcases hl : w.loadFails with _ | _
  · rcases hq : scLoop (get_scrollable_feed w.initialDom) maxT w.events
      ⟨[], [], [], []⟩ with ⟨st, t⟩
    have hnf : t ≠ Terminal.fatalPre := by
      have h := scLoop_ne_fatal (get_scrollable_feed w.initialDom) maxT
        w.events ⟨[], [], [], []⟩
      rw [hq] at h
      exact h
    have hterm := run_terminal w dir now maxT hl st t hq
    have hrows := run_rows w dir now maxT hl st t hq
    constructor
    · intro hex
      have ht : t ≠ Terminal.cut := by
        rcases hex with h | h <;> rw [hterm] at h <;> simp [h]
      have hfc := run_flushCalls w dir now maxT hl st t hq ht
      have hqc := run_quit w dir now maxT hl st t hq ht
      refine ⟨?_, ?_, ?_⟩
      · intro hc
        rw [hrows] at hc
        rw [hfc, if_pos hc, hrows]
      · intro hc
        rw [hrows] at hc
        rw [hfc, if_neg ?_]
        rintro ⟨h1, h2⟩
        rcases hc with hc | hc
        · exact h1 hc
        · rw [hc] at h2
          exact Bool.noConfusion h2
      · rw [hfc]
        constructor
        · intro h
          obtain ⟨h1, h2, h3⟩ := hqc.mp h
          rw [if_pos ⟨h1, h2⟩]
          exact ⟨by simp, h3⟩
        · intro ⟨h1, h3⟩
          by_cases hc : st.rows ≠ [] ∧ w.pdAvailable = true
          · exact hqc.mpr ⟨hc.1, hc.2, h3⟩
          · rw [if_neg hc] at h1
            exact absurd rfl h1
    · intro hfp
      rw [hterm] at hfp
      exact absurd hfp hnf
  · rw [run_fatal w dir now maxT hl]
    constructor
    · rintro (h | h) <;> simp at h
    · intro _
      exact ⟨rfl, rfl⟩

/-- Witness for the amended C1 at a concrete run: target reached with one
record, pandas available, flush succeeds — flush is invoked exactly once
with the captured rows. -/
theorem C1_flush_and_close_witness :
    (run_full_x_scraper
      { loadFails := false, initialDom := ⟨[itemA], []⟩
      , events := [PassEvent.content [itemA]]
      , pdAvailable := true, flushRaises := false } "d" 1 "t").flushCalls =
      [(run_full_x_scraper
        { loadFails := false, initialDom := ⟨[itemA], []⟩
        , events := [PassEvent.content [itemA]]
        , pdAvailable := true, flushRaises := false } "d" 1 "t").rows] :=
  ((C1_flush_and_close
      { loadFails := false, initialDom := ⟨[itemA], []⟩
      , events := [PassEvent.content [itemA]]
      , pdAvailable := true, flushRaises := false } "d" "t" 1).1
    (Or.inl (by decide))).1 ⟨by decide, by decide⟩

/-- Claim C2: for every run with a target count of at least 1, the
session's record list never exceeds `max_tweets` entries, the loop ends
in the target-reached terminal exactly when the bound is met (so exactly
on the pass that first fills it, never before), and every scroll advance
was issued at a moment when the bound was not yet met. -/
theorem C2_capacity_bound (w : World) (dir now : String) (maxT : Nat)
    (hmax : 1 ≤ maxT) :
    (run_full_x_scraper w dir maxT now).rows.length ≤ maxT ∧
    ((run_full_x_scraper w dir maxT now).terminal = Terminal.targetReached ↔
      (run_full_x_scraper w dir maxT now).rows.length = maxT) ∧
    (∀ pr ∈ (run_full_x_scraper w dir maxT now).scrolls, pr.2 < maxT) := by
  obtain ⟨h1, _, _, h4, _, _, h6⟩ := run_inv w dir now maxT
  refine ⟨h1, ?_, fun pr hpr => (h4 pr hpr).1⟩
  constructor
  · intro ht
    exact (h6.mp ht).2
  · intro hlen
    rcases hf : w.loadFails with _ | _
    · exact h6.mpr ⟨hf, hlen⟩
    · rw [run_fatal w dir now maxT hf] at hlen
      exact absurd hlen.symm (by simpa using Nat.ne_of_gt hmax)

/-- Witness for C2 at a concrete run: two passes, capacity 1, the first
pass fills the bound. -/
theorem C2_capacity_bound_witness :
    (1 ≤ 1) ∧
    ((run_full_x_scraper
        { loadFails := false, initialDom := ⟨[itemA], []⟩
        , events := [PassEvent.content [itemA], PassEvent.closed]
        , pdAvailable := true, flushRaises := false } "d" 1 "t").rows.length ≤ 1 ∧
      ((run_full_x_scraper
        { loadFails := false, initialDom := ⟨[itemA], []⟩
        , events := [PassEvent.content [itemA], PassEvent.closed]
        , pdAvailable := true, flushRaises := false } "d" 1 "t").terminal =
          Terminal.targetReached ↔
        (run_full_x_scraper
        { loadFails := false, initialDom := ⟨[itemA], []⟩
        , events := [PassEvent.content [itemA], PassEvent.closed]
        , pdAvailable := true, flushRaises := false } "d" 1 "t").rows.length = 1) ∧
      (∀ pr ∈ (run_full_x_scraper
        { loadFails := false, initialDom := ⟨[itemA], []⟩
        , events := [PassEvent.content [itemA], PassEvent.closed]
        , pdAvailable := true, flushRaises := false } "d" 1 "t").scrolls,
          pr.2 < 1)) :=
  ⟨by decide, C2_capacity_bound _ "d" "t" 1 (by decide)⟩

/-- Claim C3: re-presenting an already-admitted (hence seen) body is a
no-op for `scrape_visible_tweets` — neither the admitted records nor the
seen set change; the bodies admitted by a pass are exactly the first
occurrences of the presented non-blank bodies not yet seen, in the order
first observed; and a whole run admits each body at most once. -/
theorem C3_dedup_idempotent :
    (∀ items seen it, tweetText it ∈ seen →
      scrape_visible_tweets (items ++ [it]) seen =
        scrape_visible_tweets items seen) ∧
    (∀ items seen, (scrape_visible_tweets items seen).1.map Record.text =
      dedupFirst (presentedBodies items) seen) ∧
    (∀ w dir now maxT,
      ((run_full_x_scraper w dir maxT now).rows.map Record.text).Nodup) :=
  ⟨fun items seen it h => scrape_append_seen items seen it (Or.inr h),
    scrape_texts,
    fun w dir now maxT => (run_inv w dir now maxT).2.2.1⟩

/-- Witness for C3: re-presenting the already-seen body `"dup"` after a
fresh item leaves the pass output unchanged. -/
theorem C3_dedup_idempotent_witness :
    tweetText (mkItem "dup") ∈ (["dup"] : List String) ∧
    scrape_visible_tweets ([mkItem "fresh"] ++ [mkItem "dup"]) ["dup"] =
      scrape_visible_tweets [mkItem "fresh"] ["dup"] :=
  ⟨by decide,
    C3_dedup_idempotent.1 [mkItem "fresh"] ["dup"] (mkItem "dup") (by decide)⟩

/-- Claim C4: every record admitted by a pass has a non-blank body, that
body is the trimmed raw body text of some non-raising presented item (so
an empty or whitespace-only body is never admitted, whatever the other
fields hold), and every record of a whole run has a non-blank body. -/
theorem C4_nonblank_body :
    (∀ items seen r, r ∈ (scrape_visible_tweets items seen).1 →
      r.text ≠ "" ∧ ∃ it, it ∈ items ∧ it.stale = false ∧
        r = extractTweet it ∧ r.text = tweetText it) ∧
    (∀ w dir now maxT r,
      r ∈ (run_full_x_scraper w dir maxT now).rows → r.text ≠ "") := by
  constructor
  · intro items seen r hr
    obtain ⟨_, h2, it, h3, h4, h5⟩ := scrape_mem items seen r hr
    exact ⟨h2, it, h3, h4, h5, by rw [h5, extractTweet_text]⟩
  · intro w dir now maxT r hr
    exact ((run_inv w dir now maxT).2.1 r hr).2

/-- Witness for C4: the padded body `"  a  "` is admitted as its trimmed
form, which is non-blank. -/
theorem C4_nonblank_body_witness :
    extractTweet (mkItem "  a  ") ∈
      (scrape_visible_tweets [mkItem "  a  "] []).1 ∧
    (extractTweet (mkItem "  a  ")).text ≠ "" :=
  ⟨by decide,
    (C4_nonblank_body.1 [mkItem "  a  "] [] (extractTweet (mkItem "  a  "))
      (by decide)).1⟩

/-- Claim C5, counterexample.  With no feed item mounted,
`_get_scrollable_feed` (lines 64-83) does not fail with any
`NoContentError`: it silently returns the absent target `None`
(line 83), and the run continues scraping with the whole-window scroll
fallback of `_scroll_feed` (lines 93-94), terminates normally and still
flushes — nothing is fatal and no flush is skipped. -/
theorem C5_counterexample :
    get_scrollable_feed (⟨[], [⟨2000, 100, "auto", false⟩]⟩ : Dom) = none ∧
    (run_full_x_scraper
      { loadFails := false, initialDom := ⟨[], []⟩
      , events := [PassEvent.content [itemA], PassEvent.closed]
      , pdAvailable := true, flushRaises := false } "d" 3 "t").terminal =
        Terminal.terminated ∧
    (run_full_x_scraper
      { loadFails := false, initialDom := ⟨[], []⟩
      , events := [PassEvent.content [itemA], PassEvent.closed]
      , pdAvailable := true, flushRaises := false } "d" 3 "t").scrolls =
        [(ScrollCmd.windowBy 700, 1)] ∧
    (run_full_x_scraper
      { loadFails := false, initialDom := ⟨[], []⟩
      , events := [PassEvent.content [itemA], PassEvent.closed]
      , pdAvailable := true, flushRaises := false } "d" 3 "t").flushCalls ≠
        [] := by
  refine ⟨?_, ?_, ?_, ?_⟩ <;> decide

/-- Claim C5, amended: when no feed item is mounted at locator time, the
feed locator returns no target (`None`) rather than raising; this is not
fatal to the session — scraping continues, with every scroll advance
falling back to whole-window scrolling. -/
theorem C5_locator_absent (dom : Dom) (hdom : dom.tweets = [])
    (w : World) (dir now : String) (maxT : Nat)
    (hl : w.loadFails = false) (hw : w.initialDom.tweets = []) :
    get_scrollable_feed dom = none ∧
    (∀ amt : Int, scroll_feed (get_scrollable_feed dom) (some amt) =
      ScrollCmd.windowBy amt) ∧
    (run_full_x_scraper w dir maxT now).terminal ≠ Terminal.fatalPre ∧
    (∀ pr ∈ (run_full_x_scraper w dir maxT now).scrolls,
      pr.1 = ScrollCmd.windowBy 700) := by
  have hgd : get_scrollable_feed dom = none := by
    simp [get_scrollable_feed, hdom]
  have hgw : get_scrollable_feed w.initialDom = none := by
    simp [get_scrollable_feed, hw]
  refine ⟨hgd, fun amt => by rw [hgd]; rfl, ?_, ?_⟩
  · rcases hq : scLoop (get_scrollable_feed w.initialDom) maxT w.events
      ⟨[], [], [], []⟩ with ⟨st, t⟩
    rw [run_terminal w dir now maxT hl st t hq]
    have h := scLoop_ne_fatal (get_scrollable_feed w.initialDom) maxT
      w.events ⟨[], [], [], []⟩
    rw [hq] at h
    exact h
  · intro pr hpr
    have h := ((run_inv w dir now maxT).2.2.2.1 pr hpr).2
    rw [hgw] at h
    exact h

/-- Witness for the amended C5: an empty DOM yields no target, and a run
over an empty initial DOM is not fatal. -/
theorem C5_locator_absent_witness :
    get_scrollable_feed (⟨[], []⟩ : Dom) = none ∧
    (run_full_x_scraper
      { loadFails := false, initialDom := ⟨[], []⟩
      , events := [PassEvent.content [itemA], PassEvent.closed]
      , pdAvailable := true, flushRaises := false } "d" 3 "t").terminal ≠
        Terminal.fatalPre :=
  ⟨(C5_locator_absent ⟨[], []⟩ rfl
      { loadFails := false, initialDom := ⟨[], []⟩
      , events := [PassEvent.content [itemA], PassEvent.closed]
      , pdAvailable := true, flushRaises := false } "d" "t" 3 rfl rfl).1,
    (C5_locator_absent ⟨[], []⟩ rfl
      { loadFails := false, initialDom := ⟨[], []⟩
      , events := [PassEvent.content [itemA], PassEvent.closed]
      , pdAvailable := true, flushRaises := false } "d" "t" 3 rfl rfl).2.2.1⟩

/-- Claim C6, counterexample.  The loop advances the scroll with the
constant amount 700 (line 208), not a fraction of the resolved viewport
height: two runs whose resolved scroll targets have client heights 100
and 1000 both issue exactly the command `scrollTop += 700`, and 700 even
exceeds the smaller viewport, which no fixed fraction of the viewport
height could do. -/
theorem C6_counterexample :
    get_scrollable_feed (⟨[itemA], [⟨2000, 100, "auto", false⟩]⟩ : Dom) =
      some (ScrollTarget.chainEl 0) ∧
    get_scrollable_feed (⟨[itemA], [⟨5000, 1000, "auto", false⟩]⟩ : Dom) =
      some (ScrollTarget.chainEl 0) ∧
    (run_full_x_scraper
      { loadFails := false
      , initialDom := ⟨[itemA], [⟨2000, 100, "auto", false⟩]⟩
      , events := [PassEvent.content [itemA], PassEvent.closed]
      , pdAvailable := true, flushRaises := false } "d" 5 "t").scrolls =
        [(ScrollCmd.elementBy 700, 1)] ∧
    (run_full_x_scraper
      { loadFails := false
      , initialDom := ⟨[itemA], [⟨5000, 1000, "auto", false⟩]⟩
      , events := [PassEvent.content [itemA], PassEvent.closed]
      , pdAvailable := true, flushRaises := false } "d" 5 "t").scrolls =
        [(ScrollCmd.elementBy 700, 1)] ∧
    (100 : Nat) < 700 := by
  refine ⟨?_, ?_, ?_, ?_, ?_⟩ <;> decide

/-- Claim C6, amended: every scroll advance issued by the scraping loop
is by the constant 700 pixels (independent of the resolved target's
viewport height) — element-relative when a target was resolved,
window-relative otherwise — and each advance is paired with one fixed
3-second settle sleep. -/
theorem C6_constant_scroll (w : World) (dir now : String) (maxT : Nat) :
    (∀ pr ∈ (run_full_x_scraper w dir maxT now).scrolls,
      pr.1 = scroll_feed (get_scrollable_feed w.initialDom) (some 700) ∧
      (pr.1 = ScrollCmd.elementBy 700 ∨ pr.1 = ScrollCmd.windowBy 700)) ∧
    (∀ s ∈ (run_full_x_scraper w dir maxT now).sleeps, s = 3) ∧
    (run_full_x_scraper w dir maxT now).sleeps.length =
      (run_full_x_scraper w dir maxT now).scrolls.length := by
  obtain ⟨_, _, _, h4, h5, h6, _⟩ := run_inv w dir now maxT
  refine ⟨?_, h5, h6⟩
  intro pr hpr
  refine ⟨(h4 pr hpr).2, ?_⟩
  rcases hsc : get_scrollable_feed w.initialDom with _ | tgt
  · right
    rw [(h4 pr hpr).2, hsc]
    rfl
  · left
    rw [(h4 pr hpr).2, hsc]
    rfl

/-- Witness for the amended C6: the single scroll of a concrete run is
the fixed element-relative 700-pixel command. -/
theorem C6_constant_scroll_witness :
    ((ScrollCmd.elementBy 700, 1) : ScrollCmd × Nat).1 =
      scroll_feed
        (get_scrollable_feed (⟨[itemA], [⟨2000, 100, "auto", false⟩]⟩ : Dom))
        (some 700) ∧
    (((ScrollCmd.elementBy 700, 1) : ScrollCmd × Nat).1 =
        ScrollCmd.elementBy 700 ∨
      ((ScrollCmd.elementBy 700, 1) : ScrollCmd × Nat).1 =
        ScrollCmd.windowBy 700) :=
  (C6_constant_scroll
    { loadFails := false
    , initialDom := ⟨[itemA], [⟨2000, 100, "auto", false⟩]⟩
    , events := [PassEvent.content [itemA], PassEvent.closed]
    , pdAvailable := true, flushRaises := false } "d" "t" 5).1
    (ScrollCmd.elementBy 700, 1) (by decide)

/-- Claim C7: for a mounted item with a non-blank body, removing any
single non-body field (author attribution, permalink, media, either
engagement label) only empties that field of the extracted record —
author/permalink/engagement degrade to `""`, media to the `"text-only"`
marker — while every other field keeps exactly the value it has with the
field present; extraction is total (never raises), and the item is still
admitted by a pass. -/
theorem C7_field_independence (it : TweetItem) (hstale : it.stale = false)
    (hbody : tweetText it ≠ "") :
    scrape_visible_tweets [it] [] = ([extractTweet it], [tweetText it]) ∧
    scrape_visible_tweets [{ it with authorDiv := none }] [] =
      ([{ extractTweet it with account := "" }], [tweetText it]) ∧
    extractTweet { it with authorDiv := none } =
      { extractTweet it with account := "" } ∧
    extractTweet { it with timeLink := none } =
      { extractTweet it with tweet_url := "" } ∧
    extractTweet
        { it with imgSrcs := [], vidPosters := [], mediaFails := false } =
      { extractTweet it with media_links := "text-only" } ∧
    extractTweet { it with mediaFails := true } =
      { extractTweet it with media_links := "text-only" } ∧
    extractTweet { it with likeAria := none } =
      { extractTweet it with likes := "" } ∧
    extractTweet { it with likeAria := some none } =
      { extractTweet it with likes := "" } ∧
    extractTweet { it with retweetAria := none } =
      { extractTweet it with retweets := "" } ∧
    extractTweet { it with retweetAria := some none } =
      { extractTweet it with retweets := "" } := by
  have hadm : ∀ it' : TweetItem, it'.stale = false → tweetText it' ≠ "" →
      scrape_visible_tweets [it'] [] = ([extractTweet it'], [tweetText it']) := by
    intro it' h1 h2
    rw [scrape_visible_tweets, if_neg (by simp [h1]),
      if_neg (by simp [h2])]
    rfl
  exact ⟨hadm it hstale hbody,
    hadm { it with authorDiv := none } hstale hbody,
    rfl, rfl, rfl, rfl, rfl, rfl, rfl, rfl⟩

/-- Witness for C7 at the concrete item `itemA` (body non-blank): the
extraction with the author attribution removed equals the full
extraction with an emptied account field. -/
theorem C7_field_independence_witness :
    itemA.stale = false ∧ tweetText itemA ≠ "" ∧
    extractTweet { itemA with authorDiv := none } =
      { extractTweet itemA with account := "" } :=
  ⟨by decide, by decide,
    (C7_field_independence itemA rfl (by decide)).2.2.1⟩

/-- Claim C8: the spreadsheet written by a flush holds exactly one row
per admitted record, each row in the fixed column order account handle,
permalink, body text, media references, like count, retweet count; the
media cell is the `" | "`-joined reference list or the literal
`"text-only"` marker. -/
theorem C8_column_order (w : World) (dir now : String) (maxT : Nat) :
    (∀ tbl, (run_full_x_scraper w dir maxT now).fileWritten = some tbl →
      tbl = (run_full_x_scraper w dir maxT now).rows.map rowOf ∧
      tbl.length = (run_full_x_scraper w dir maxT now).rows.length) ∧
    (∀ r : Record, rowOf r =
      [r.account, r.tweet_url, r.text, r.media_links, r.likes, r.retweets]) ∧
    (∀ it : TweetItem, get_tweet_media_links it = "text-only" ∨
      (mediaList it ≠ [] ∧
        get_tweet_media_links it = joinSep " | " (mediaList it))) := by
  refine ⟨?_, fun r => rfl, ?_⟩
  · intro tbl htbl
    rcases hl : w.loadFails with _ | _
    · rcases hq : scLoop (get_scrollable_feed w.initialDom) maxT w.events
        ⟨[], [], [], []⟩ with ⟨st, t⟩
      rw [run_rows w dir now maxT hl st t hq]
      by_cases ht : t = Terminal.cut
      · rw [run_eq w dir now maxT hl st t hq, if_pos ht] at htbl
        exact absurd htbl (by simp)
      · rw [run_fileWritten w dir now maxT hl st t hq ht] at htbl
        split_ifs at htbl with hc
        obtain rfl : st.rows.map rowOf = tbl := by
          injection htbl
        exact ⟨rfl, by simp⟩
    · rw [run_fatal w dir now maxT hl] at htbl
      exact absurd htbl (by simp)
  · intro it
    rw [get_tweet_media_links]
    split_ifs with h1 h2
    · exact Or.inl rfl
    · exact Or.inl rfl
    · exact Or.inr ⟨h2, rfl⟩

/-- Witness for C8 at a concrete flushing run: the written table is the
single row of the single record, in column order. -/
theorem C8_column_order_witness :
    (run_full_x_scraper
      { loadFails := false, initialDom := ⟨[itemA], []⟩
      , events := [PassEvent.content [itemA]]
      , pdAvailable := true, flushRaises := false } "d" 1 "t").fileWritten =
      some [["@alice", "https://x.com/alice/status/1", "hello world",
        "https://pbs.example/a.jpg", "1,234", "56"]] ∧
    [["@alice", "https://x.com/alice/status/1", "hello world",
        "https://pbs.example/a.jpg", "1,234", "56"]] =
      (run_full_x_scraper
        { loadFails := false, initialDom := ⟨[itemA], []⟩
        , events := [PassEvent.content [itemA]]
        , pdAvailable := true, flushRaises := false } "d" 1 "t").rows.map
          rowOf :=
  ⟨by decide,
    ((C8_column_order
        { loadFails := false, initialDom := ⟨[itemA], []⟩
        , events := [PassEvent.content [itemA]]
        , pdAvailable := true, flushRaises := false } "d" "t" 1).1
      [["@alice", "https://x.com/alice/status/1", "hello world",
        "https://pbs.example/a.jpg", "1,234", "56"]] (by decide)).1⟩

/-- Claim C9: when a single pass yields more new non-blank records than
the remaining capacity, the session keeps only the first
capacity's-worth, the run ends target-reached, and every surplus record's
body is in the seen-fingerprint set while its record is absent from the
captured rows — hence permanently absent from the flushed output, whose
single flush carries exactly the capped rows. -/
theorem C9_surplus_fingerprints (items : List TweetItem) (w : World)
    (dir now : String) (maxT : Nat) (hmax : 1 ≤ maxT)
    (hl : w.loadFails = false)
    (hev : w.events = [PassEvent.content items]) (hpd : w.pdAvailable = true)
    (hlen : maxT < (scrape_visible_tweets items []).1.length) :
    (run_full_x_scraper w dir maxT now).rows =
      (scrape_visible_tweets items []).1.take maxT ∧
    (run_full_x_scraper w dir maxT now).terminal = Terminal.targetReached ∧
    (∀ r ∈ (scrape_visible_tweets items []).1.drop maxT,
      r.text ∈ (run_full_x_scraper w dir maxT now).seen ∧
      r.text ∉ (run_full_x_scraper w dir maxT now).rows.map Record.text) ∧
    (run_full_x_scraper w dir maxT now).flushCalls =
      [(scrape_visible_tweets items []).1.take maxT] := by
  have htake : appendCapped maxT [] (scrape_visible_tweets items []).1 =
      (scrape_visible_tweets items []).1.take maxT := by
    rw [appendCapped_eq_take maxT [] _ (by simp)]
    simp
  have hlen2 : ((scrape_visible_tweets items []).1.take maxT).length = maxT := by
    rw [List.length_take]
    omega
  have hq : scLoop (get_scrollable_feed w.initialDom) maxT w.events
      ⟨[], [], [], []⟩ =
      ({ rows := (scrape_visible_tweets items []).1.take maxT
       , seen := (scrape_visible_tweets items []).2
       , scrolls := [], sleeps := [] }, Terminal.targetReached) := by
    rw [hev]
    simp only [scLoop]
    rw [if_neg (by simp; omega)]
    rw [htake, if_pos hlen2.ge]
  have hrows := run_rows w dir now maxT hl _ _ hq
  have hseen := run_seen w dir now maxT hl _ _ hq
  have hnd := scrape_nodup items []
  refine ⟨hrows, run_terminal w dir now maxT hl _ _ hq, ?_, ?_⟩
  · intro r hr
    have hmemfull : r ∈ (scrape_visible_tweets items []).1 :=
      List.drop_subset _ _ hr
    constructor
    · rw [hseen]
      show r.text ∈ (scrape_visible_tweets items []).2
      rw [scrape_seen_eq]
      exact List.mem_append_right _ (List.mem_map_of_mem _ hmemfull)
    · rw [hrows]
      have hnd2 :
          ((((scrape_visible_tweets items []).1.map Record.text).take maxT) ++
            (((scrape_visible_tweets items []).1.map
              Record.text).drop maxT)).Nodup := by
        rw [List.take_append_drop]
        exact hnd
      have hd := (List.nodup_append.mp hnd2).2.2
      intro hmem
      rw [List.map_take] at hmem
      exact hd hmem
        (by rw [← List.map_drop]; exact List.mem_map_of_mem _ hr)
  · rw [run_flushCalls w dir now maxT hl _ _ hq (by simp)]
    have hne : (scrape_visible_tweets items []).1.take maxT ≠ [] := by
      apply List.ne_nil_of_length_pos
      omega
    rw [if_pos ⟨hne, hpd⟩]

/-- Witness for C9: capacity 1, one pass presenting the two distinct
bodies `"one"` and `"two"` — only `"one"`'s record is kept and flushed,
while `"two"`'s fingerprint is consumed. -/
theorem C9_surplus_fingerprints_witness :
    (run_full_x_scraper
      { loadFails := false, initialDom := ⟨[], []⟩
      , events := [PassEvent.content [mkItem "one", mkItem "two"]]
      , pdAvailable := true, flushRaises := false } "d" 1 "t").rows =
      (scrape_visible_tweets [mkItem "one", mkItem "two"] []).1.take 1 ∧
    (run_full_x_scraper
      { loadFails := false, initialDom := ⟨[], []⟩
      , events := [PassEvent.content [mkItem "one", mkItem "two"]]
      , pdAvailable := true, flushRaises := false } "d" 1 "t").terminal =
      Terminal.targetReached :=
  ⟨(C9_surplus_fingerprints [mkItem "one", mkItem "two"]
      { loadFails := false, initialDom := ⟨[], []⟩
      , events := [PassEvent.content [mkItem "one", mkItem "two"]]
      , pdAvailable := true, flushRaises := false } "d" "t" 1
      (by decide) rfl rfl rfl (by decide)).1,
    (C9_surplus_fingerprints [mkItem "one", mkItem "two"]
      { loadFails := false, initialDom := ⟨[], []⟩
      , events := [PassEvent.content [mkItem "one", mkItem "two"]]
      , pdAvailable := true, flushRaises := false } "d" "t" 1
      (by decide) rfl rfl rfl (by decide)).2.1⟩

/-- Claim C10: any value `run_full_x_scraper` returns is exactly the
timestamped path computed at the start of the run, and a run whose loop
exited with zero records (or without the spreadsheet library) still
returns that path even though no file was written at it. -/
theorem C10_returns_path (w : World) (dir now : String) (maxT : Nat) :
    (∀ fp, (run_full_x_scraper w dir maxT now).outcome = Outcome.ok fp →
      fp = xFilePath dir now) ∧
    (((run_full_x_scraper w dir maxT now).terminal = Terminal.targetReached ∨
      (run_full_x_scraper w dir maxT now).terminal = Terminal.terminated) →
      ((run_full_x_scraper w dir maxT now).rows = [] ∨ w.pdAvailable = false) →
      (run_full_x_scraper w dir maxT now).outcome =
        Outcome.ok (xFilePath dir now) ∧
      (run_full_x_scraper w dir maxT now).fileWritten = none) := by
  rcases hl : w.loadFails with _ | _
  · rcases hq : scLoop (get_scrollable_feed w.initialDom) maxT w.events
      ⟨[], [], [], []⟩ with ⟨st, t⟩
    have hterm := run_terminal w dir now maxT hl st t hq
    have hrows := run_rows w dir now maxT hl st t hq
    constructor
    · intro fp h
      by_cases ht : t = Terminal.cut
      · rw [run_eq w dir now maxT hl st t hq, if_pos ht] at h
        exact absurd h (by simp)
      · rw [run_outcome w dir now maxT hl st t hq ht] at h
        split_ifs at h with hc
        injection h with h
        exact h.symm
    · intro hex hempty
      have ht : t ≠ Terminal.cut := by
        rcases hex with h | h <;> rw [hterm] at h <;> simp [h]
      have hC : ¬(st.rows ≠ [] ∧ w.pdAvailable = true ∧
          w.flushRaises = true) := by
        rintro ⟨h1, h2, _⟩
        rw [hrows] at hempty
        rcases hempty with h | h
        · exact h1 h
        · rw [h2] at h
          exact Bool.noConfusion h
      have hC' : ¬(st.rows ≠ [] ∧ w.pdAvailable = true ∧
          w.flushRaises = false) := by
        rintro ⟨h1, h2, _⟩
        rw [hrows] at hempty
        rcases hempty with h | h
        · exact h1 h
        · rw [h2] at h
          exact Bool.noConfusion h
      rw [run_outcome w dir now maxT hl st t hq ht,
        run_fileWritten w dir now maxT hl st t hq ht, if_neg hC, if_neg hC']
      exact ⟨rfl, rfl⟩
  · rw [run_fatal w dir now maxT hl]
    constructor
    · intro fp h
      exact absurd h (by simp)
    · rintro (h | h) <;> simp at h

/-- Witness for C10: a zero-record run (browser closed on the first
pass) returns the start-computed path with no file written. -/
theorem C10_returns_path_witness :
    (run_full_x_scraper
      { loadFails := false, initialDom := ⟨[], []⟩
      , events := [PassEvent.closed]
      , pdAvailable := true, flushRaises := false } "d" 5 "t").outcome =
      Outcome.ok (xFilePath "d" "t") ∧
    (run_full_x_scraper
      { loadFails := false, initialDom := ⟨[], []⟩
      , events := [PassEvent.closed]
      , pdAvailable := true, flushRaises := false } "d" 5 "t").fileWritten =
      none :=
  (C10_returns_path
    { loadFails := false, initialDom := ⟨[], []⟩
    , events := [PassEvent.closed]
    , pdAvailable := true, flushRaises := false } "d" "t" 5).2
    (Or.inr (by decide)) (Or.inl (by decide))

end XScraper
